import Mathlib

/-!
Verification development for the auto-capture engine of the easyocr-AAW
frontend (`src/frontend/screens/LoginScreen.js` and the API helpers in
`src/utils/api.js`).

The development has two layers:

* a JS-number layer (`JSNum`) that embeds the floating-point expressions of
  `deriveAlignmentScore`, `computeJitterPenalty` and the accelerometer
  listener, tracking NaN and infinity propagation explicitly (real-valued
  payloads idealize finite doubles; rounding and overflow are not modelled);

* a state-machine layer (`AutoState` / `stepAuto`) that embeds the React
  state, the refs, the auto-capture effect, the countdown interval callback,
  the fiducial polling interval and `checkFiducials`, with the asynchronous
  fiducial check split into a begin event and a completion event.

UI-only status strings (`setAlignmentStatus`) are elided.
-/

/-- A JavaScript number: a finite value (idealized as a real), NaN, or a
signed infinity. -/
inductive JSNum where
  | fin : ℝ → JSNum
  | nan : JSNum
  | posInf : JSNum
  | negInf : JSNum

namespace JSNum

section
open Classical

/-- JS addition. NaN propagates; infinities of opposite sign give NaN. -/
def add : JSNum → JSNum → JSNum
  | nan, _ => nan
  | _, nan => nan
  | fin x, fin y => fin (x + y)
  | posInf, negInf => nan
  | negInf, posInf => nan
  | posInf, _ => posInf
  | _, posInf => posInf
  | negInf, _ => negInf
  | _, negInf => negInf

/-- JS unary negation. -/
def neg : JSNum → JSNum
  | nan => nan
  | fin x => fin (-x)
  | posInf => negInf
  | negInf => posInf

/-- JS subtraction, `a - b = a + (-b)`. -/
def sub (a b : JSNum) : JSNum := add a (neg b)

/-- JS multiplication. NaN propagates; `±∞ × 0 = NaN`. -/
noncomputable def mul : JSNum → JSNum → JSNum
  | nan, _ => nan
  | _, nan => nan
  | fin x, fin y => fin (x * y)
  | posInf, posInf => posInf
  | posInf, negInf => negInf
  | negInf, posInf => negInf
  | negInf, negInf => posInf
  | posInf, fin y => if y = 0 then nan else if 0 < y then posInf else negInf
  | negInf, fin y => if y = 0 then nan else if 0 < y then negInf else posInf
  | fin x, posInf => if x = 0 then nan else if 0 < x then posInf else negInf
  | fin x, negInf => if x = 0 then nan else if 0 < x then negInf else posInf

/-- JS division. NaN propagates; `x / 0` is a signed infinity (NaN at 0/0);
a finite value divided by an infinity is 0; `∞ / ∞ = NaN`. -/
noncomputable def div : JSNum → JSNum → JSNum
  | nan, _ => nan
  | _, nan => nan
  | fin x, fin y =>
      if y = 0 then (if x = 0 then nan else if 0 < x then posInf else negInf)
      else fin (x / y)
  | fin _, posInf => fin 0
  | fin _, negInf => fin 0
  | posInf, posInf => nan
  | posInf, negInf => nan
  | negInf, posInf => nan
  | negInf, negInf => nan
  | posInf, fin y => if 0 ≤ y then posInf else negInf
  | negInf, fin y => if 0 ≤ y then negInf else posInf

/-- JS `Math.sqrt`. NaN on negative or NaN input, `√(+∞) = +∞`. -/
noncomputable def sqrt : JSNum → JSNum
  | nan => nan
  | negInf => nan
  | posInf => posInf
  | fin x => if 0 ≤ x then fin (Real.sqrt x) else nan

/-- JS `Math.abs`. -/
def abs : JSNum → JSNum
  | nan => nan
  | posInf => posInf
  | negInf => posInf
  | fin x => fin |x|

/-- JS `Math.max` on two arguments: NaN if either argument is NaN. -/
def max2 : JSNum → JSNum → JSNum
  | nan, _ => nan
  | _, nan => nan
  | fin x, fin y => fin (max x y)
  | posInf, _ => posInf
  | _, posInf => posInf
  | negInf, b => b
  | a, negInf => a

/-- JS `Math.min` on two arguments: NaN if either argument is NaN. -/
def min2 : JSNum → JSNum → JSNum
  | nan, _ => nan
  | _, nan => nan
  | fin x, fin y => fin (min x y)
  | negInf, _ => negInf
  | _, negInf => negInf
  | posInf, b => b
  | a, posInf => a

/-- `Number.isFinite`. -/
def isFin : JSNum → Bool
  | fin _ => true
  | _ => false

/-- The JS idiom `v || 0`: falsy numbers (0 and NaN) fall back to 0. -/
noncomputable def orZero : JSNum → JSNum
  | nan => fin 0
  | fin x => if x = 0 then fin 0 else fin x
  | posInf => posInf
  | negInf => negInf

end

end JSNum

/-- An accelerometer sample `{x, y, z}` as delivered to the listener. -/
structure AccelSample where
  x : JSNum
  y : JSNum
  z : JSNum

/-- All three components of a sample are finite. -/
def AccelSample.finite (a : AccelSample) : Bool :=
  a.x.isFin && a.y.isFin && a.z.isFin

/-- Constant `MAX_ACCEL_DELTA = 0.35` from `LoginScreen.js`. -/
def MAX_ACCEL_DELTA : ℝ := 0.35

/-- Embedding of `deriveAlignmentScore` from `LoginScreen.js` (lines 579-589),
over JS numbers.  The destructuring defaults `x = 0, y = 0, z = 0` only apply
to absent fields, which the sample structure rules out. -/
noncomputable def deriveAlignmentScore (s : AccelSample) : JSNum :=
  let magnitude := JSNum.max2 (JSNum.fin 1e-3)
    (JSNum.sqrt (JSNum.add (JSNum.add (JSNum.mul s.x s.x) (JSNum.mul s.y s.y)) (JSNum.mul s.z s.z)))
  let normX := JSNum.div s.x magnitude
  let normY := JSNum.div s.y magnitude
  let normZ := JSNum.div s.z magnitude
  let gravityDrift := JSNum.min2 (JSNum.fin 1) (JSNum.abs (JSNum.sub magnitude (JSNum.fin 1)))
  let tiltPenalty := JSNum.min2 (JSNum.fin 1) (JSNum.abs (JSNum.sub (JSNum.abs normZ) (JSNum.fin 1)))
  let lateralMotion := JSNum.min2 (JSNum.fin 1)
    (JSNum.sqrt (JSNum.add (JSNum.mul normX normX) (JSNum.mul normY normY)))
  let score := JSNum.sub (JSNum.fin 1)
    (JSNum.add (JSNum.add (JSNum.mul (JSNum.fin 0.5) tiltPenalty) (JSNum.mul (JSNum.fin 0.3) gravityDrift))
      (JSNum.mul (JSNum.fin 0.2) lateralMotion))
  JSNum.max2 (JSNum.fin 0) (JSNum.min2 (JSNum.fin 1) score)

/-- Embedding of `computeJitterPenalty` from `LoginScreen.js` (lines 591-600):
returns 0 when either sample is missing, otherwise
`min(1, |current - previous| / MAX_ACCEL_DELTA)`; each component is read
through the `|| 0` coercion. -/
noncomputable def computeJitterPenalty :
    Option AccelSample → Option AccelSample → JSNum
  | none, _ => JSNum.fin 0
  | _, none => JSNum.fin 0
  | some p, some c =>
    let dx := JSNum.sub c.x.orZero p.x.orZero
    let dy := JSNum.sub c.y.orZero p.y.orZero
    let dz := JSNum.sub c.z.orZero p.z.orZero
    let delta := JSNum.sqrt (JSNum.add (JSNum.add (JSNum.mul dx dx) (JSNum.mul dy dy)) (JSNum.mul dz dz))
    JSNum.min2 (JSNum.fin 1) (JSNum.div delta (JSNum.fin MAX_ACCEL_DELTA))

/-- State carried by the accelerometer listener: the smoothed score
(`alignmentScore`, initially `useState(0)`) and `lastAccelSampleRef`
(initially null). -/
structure AlignState where
  score : JSNum
  lastSample : Option AccelSample

/-- Initial listener state: `useState(0)` and a null `lastAccelSampleRef`. -/
def alignInit : AlignState := ⟨JSNum.fin 0, none⟩

/-- The `composite` value computed by the accelerometer listener
(`LoginScreen.js` lines 838-843): the clamped base score minus
`computeJitterPenalty(last, data) * 0.45`. -/
noncomputable def listenerComposite (lastSample : Option AccelSample) (data : AccelSample) : JSNum :=
  let baseScore := deriveAlignmentScore data
  let jitterPenalty := JSNum.mul (computeJitterPenalty lastSample (some data)) (JSNum.fin 0.45)
  JSNum.max2 (JSNum.fin 0) (JSNum.min2 (JSNum.fin 1) (JSNum.sub baseScore jitterPenalty))

/-- Embedding of one firing of the accelerometer listener
(`LoginScreen.js` lines 838-845): update `lastAccelSampleRef` and set
`alignmentScore` to `prev * 0.55 + composite * 0.45` when `Number.isFinite(prev)`,
else to `composite`. -/
noncomputable def accelListenerStep (st : AlignState) (data : AccelSample) : AlignState :=
  let composite := listenerComposite st.lastSample data
  { score :=
      if st.score.isFin then
        JSNum.add (JSNum.mul st.score (JSNum.fin 0.55)) (JSNum.mul composite (JSNum.fin 0.45))
      else composite,
    lastSample := some data }

/-- Folding the listener over a sequence of motion samples, from the initial
session state. -/
noncomputable def runSamples (l : List AccelSample) : AlignState :=
  l.foldl accelListenerStep alignInit

/-- Invariant of the listener state on finite inputs: the smoothed score is a
finite value in `[0,1]` and the stored last sample, if any, is finite. -/
def AlignInv (st : AlignState) : Prop :=
  (∃ r, st.score = JSNum.fin r ∧ 0 ≤ r ∧ r ≤ 1) ∧
  (st.lastSample = none ∨ ∃ p, st.lastSample = some p ∧ p.finite = true)

/-- Restriction of the body of `deriveAlignmentScore` to finite inputs,
as a real-valued formula (used to state what the JS function computes on
finite samples). -/
noncomputable def realDerive (x y z : ℝ) : ℝ :=
  let magnitude := max 1e-3 (Real.sqrt (x * x + y * y + z * z))
  let normX := x / magnitude
  let normY := y / magnitude
  let normZ := z / magnitude
  let gravityDrift := min 1 |magnitude - 1|
  let tiltPenalty := min 1 (|(|normZ|) - 1|)
  let lateralMotion := min 1 (Real.sqrt (normX * normX + normY * normY))
  max 0 (min 1 (1 - (0.5 * tiltPenalty + 0.3 * gravityDrift + 0.2 * lateralMotion)))

/-- Restriction of the body of `computeJitterPenalty` to finite samples:
`min(1, |current - previous| / MAX_ACCEL_DELTA)` with the Euclidean norm. -/
noncomputable def realJitter (px py pz cx cy cz : ℝ) : ℝ :=
  min 1 (Real.sqrt ((cx - px) * (cx - px) + (cy - py) * (cy - py) + (cz - pz) * (cz - pz))
    / MAX_ACCEL_DELTA)

/-- Modelled from the spec: the `clamp01` function the spec uses to describe
the composite, `clamp01(v) = max(0, min(1, v))`. -/
noncomputable def specClamp01 (v : ℝ) : ℝ := max 0 (min 1 v)

/- ------------------------------------------------------------------ -/
/- State-machine layer: React state, refs and effects of the capture
   engine in `LoginScreen.js`.                                          -/
/- ------------------------------------------------------------------ -/

/-- Constant `AUTO_CAPTURE_START_THRESHOLD = 0.55` (`LoginScreen.js` line 572). -/
def AUTO_CAPTURE_START_THRESHOLD : ℚ := 0.55

/-- Constant `AUTO_CAPTURE_CANCEL_THRESHOLD = 0.35` (`LoginScreen.js` line 573);
defined in the source but referenced nowhere else in the repository. -/
def AUTO_CAPTURE_CANCEL_THRESHOLD : ℚ := 0.35

/-- Constant `AUTO_CAPTURE_START_MS = 1200` (`LoginScreen.js` line 574). -/
def AUTO_CAPTURE_START_MS : ℕ := 1200

/-- Constant `FIDUCIAL_CHECK_INTERVAL_MS = 450` (`LoginScreen.js` line 576). -/
def FIDUCIAL_CHECK_INTERVAL_MS : ℕ := 450

/-- Constant `MIN_FIDUCIALS_FOR_CAPTURE = 4` (`LoginScreen.js` line 577). -/
def MIN_FIDUCIALS_FOR_CAPTURE : ℕ := 4

/-- The literal period, in ms, passed to `setInterval` for the auto-capture
countdown sampler (`LoginScreen.js` line 1023). -/
def autoCaptureSampleIntervalMs : ℕ := 120

/-- The React state and refs of the capture engine that the claims concern.
Booleans model the `useState` flags and refs; `timerActive` models
`autoCaptureTimerRef.current != null`, `fiducialIntervalActive` models
`fiducialCheckIntervalRef.current != null`, `accelActive` models the
accelerometer subscription being installed.  `checksStarted` counts entries
into the body of `checkFiducials` (each of which takes a snapshot), and
`fired` counts calls of `handleTakePhoto(true)` from the countdown callback;
both are history counters used to state the claims. -/
structure AutoState where
  cameraVisible : Bool
  cameraReady : Bool
  autoCaptureEnabled : Bool
  locked : Bool
  timerActive : Bool
  timerPeriodMs : ℕ
  countdown : ℕ
  fiducialCount : ℕ
  fiducialQuality : ℚ
  fiducialReady : Bool
  fiducialIntervalActive : Bool
  fiducialInProgress : Bool
  alignmentScore : ℚ
  accelActive : Bool
  lastAccelSample : Option (ℚ × ℚ × ℚ)
  checksStarted : ℕ
  fired : ℕ

/-- Embedding of `clearAutoCaptureTimer(preserveLock)` (`LoginScreen.js`
lines 723-741): clears the countdown interval, clears the fiducial check
interval, resets the in-progress flag, releases the lock unless
`preserveLock`, and resets the countdown value to 0. -/
def clearAutoCaptureTimer (preserveLock : Bool) (s : AutoState) : AutoState :=
  { s with
    timerActive := false
    timerPeriodMs := 0
    fiducialIntervalActive := false
    fiducialInProgress := false
    locked := if preserveLock then s.locked else false
    countdown := 0 }

/-- Embedding of `stopAlignmentMonitoring` (`LoginScreen.js` lines 743-757):
removes the accelerometer subscription, nulls the last sample, clears the
fiducial check interval and in-progress flag, and zeroes the fiducial
state. -/
def stopAlignmentMonitoring (s : AutoState) : AutoState :=
  { s with
    accelActive := false
    lastAccelSample := none
    fiducialIntervalActive := false
    fiducialInProgress := false
    fiducialCount := 0
    fiducialQuality := 0
    fiducialReady := false }

/-- Embedding of `handleCloseCamera` (`LoginScreen.js` lines 928-937):
hides the camera, marks it not ready, stops alignment monitoring, clears the
auto-capture timer, and resets score, countdown and lock. -/
def handleCloseCamera (s : AutoState) : AutoState :=
  let s1 := { s with cameraVisible := false, cameraReady := false }
  let s2 := stopAlignmentMonitoring s1
  let s3 := clearAutoCaptureTimer false s2
  { s3 with alignmentScore := 0, countdown := 0, locked := false }

/-- The `bothConditionsMet` expression of the auto-capture effect
(`LoginScreen.js` lines 995-997):
`(fiducialCount >= MIN_FIDUCIALS_FOR_CAPTURE && fiducialReady) &&
 (alignmentScore >= AUTO_CAPTURE_START_THRESHOLD)`. -/
def bothConditionsMet (s : AutoState) : Bool :=
  (decide (MIN_FIDUCIALS_FOR_CAPTURE ≤ s.fiducialCount) && s.fiducialReady)
    && decide (AUTO_CAPTURE_START_THRESHOLD ≤ s.alignmentScore)

/-- Embedding of one run of the auto-capture effect (`LoginScreen.js`
lines 971-1059): the guard cascade on `cameraVisible`, `cameraReady`,
`autoCaptureEnabled` and the lock, then either starting the countdown
(fresh timer of `AUTO_CAPTURE_START_MS`, sampled at
`autoCaptureSampleIntervalMs`), cancelling it when the combined condition
no longer holds, or leaving it running.  Status-message updates are
elided. -/
def runAutoCaptureEffect (s : AutoState) : AutoState :=
  if !s.cameraVisible then clearAutoCaptureTimer false s
  else if !s.cameraReady then clearAutoCaptureTimer false s
  else if !s.autoCaptureEnabled then clearAutoCaptureTimer false s
  else if s.locked then s
  else if bothConditionsMet s && !s.timerActive then
    { s with
      timerActive := true
      timerPeriodMs := autoCaptureSampleIntervalMs
      countdown := AUTO_CAPTURE_START_MS }
  else if !(bothConditionsMet s) then
    (if s.timerActive then clearAutoCaptureTimer false s else s)
  else s

/-- Embedding of the countdown interval callback (`LoginScreen.js`
lines 1023-1034) at a moment `elapsed` ms after the countdown started:
`remaining = max(0, AUTO_CAPTURE_START_MS - elapsed)` (truncated
subtraction); when it reaches 0 the callback clears the timer preserving the
lock, takes the lock, and calls `handleTakePhoto(true)` (counted by
`fired`).  The callback only runs while the interval exists. -/
def countdownTick (elapsed : ℕ) (s : AutoState) : AutoState :=
  if s.timerActive then
    let remaining := AUTO_CAPTURE_START_MS - elapsed
    let s1 := { s with countdown := remaining }
    if remaining = 0 then
      let s2 := clearAutoCaptureTimer true s1
      { s2 with locked := true, fired := s2.fired + 1 }
    else s1
  else s

/-- Result shape returned by the fiducial validation endpoint:
`{detected, corners, quality, ready}`. -/
structure FidResult where
  detected : ℕ
  quality : ℚ
  ready : Bool
  corners : List (String × ℚ × ℚ)

/-- The sentinel result `{ detected: 0, corners: {}, quality: 0, ready: false }`
returned by `validateFiducials` on network failure or a non-ok response
(`src/utils/api.js`). -/
def fiducialFailureResult : FidResult :=
  { detected := 0, quality := 0, ready := false, corners := [] }

/-- How one in-flight `checkFiducials` body ends (`LoginScreen.js`
lines 798-824): an exception in the try block (snapshot or network helper),
a snapshot without a uri, or a resolved validation result. -/
inductive CheckOutcome where
  | threw : CheckOutcome
  | noUri : CheckOutcome
  | result : FidResult → CheckOutcome

/-- Embedding of one tick of the fiducial polling interval
(`LoginScreen.js` lines 847-852) followed by the guard of `checkFiducials`
(line 799).  `hasCamera` models `cameraRef.current` being non-null.  When
every guard passes, the body is entered: the in-progress flag is set and a
snapshot is taken (counted by `checksStarted`). -/
def fiducialPollTick (hasCamera : Bool) (s : AutoState) : AutoState :=
  if s.fiducialIntervalActive && (s.cameraReady && !s.locked) then
    if !hasCamera || !s.cameraReady || s.fiducialInProgress || s.locked then s
    else { s with fiducialInProgress := true, checksStarted := s.checksStarted + 1 }
  else s

/-- Embedding of the completion of an in-flight `checkFiducials` body
(`LoginScreen.js` lines 812-823): a resolved result is applied to the
fiducial state (`detected || 0`, `quality || 0`, `ready || false`); the
early-return and catch paths change no fiducial state; the `finally` clause
always resets the in-progress flag. -/
def applyCheckOutcome (o : CheckOutcome) (s : AutoState) : AutoState :=
  match o with
  | CheckOutcome.threw => { s with fiducialInProgress := false }
  | CheckOutcome.noUri => { s with fiducialInProgress := false }
  | CheckOutcome.result r =>
      { s with
        fiducialCount := r.detected
        fiducialQuality := r.quality
        fiducialReady := r.ready
        fiducialInProgress := false }

/-- Engine events that can occur while a camera session is open: a run of
the auto-capture effect, a countdown interval tick, a fiducial polling tick,
the completion of an in-flight fiducial check, and a smoothed-score update
delivered by the accelerometer listener. -/
inductive AutoEvent where
  | runEffect : AutoEvent
  | tick : ℕ → AutoEvent
  | fiducialPoll : Bool → AutoEvent
  | fiducialDone : CheckOutcome → AutoEvent
  | scoreUpdate : ℚ → AutoEvent

/-- One engine step.  A score update only lands while the accelerometer
subscription is installed. -/
def stepAuto (s : AutoState) : AutoEvent → AutoState
  | AutoEvent.runEffect => runAutoCaptureEffect s
  | AutoEvent.tick e => countdownTick e s
  | AutoEvent.fiducialPoll h => fiducialPollTick h s
  | AutoEvent.fiducialDone o => applyCheckOutcome o s
  | AutoEvent.scoreUpdate q =>
      if s.accelActive then { s with alignmentScore := q } else s

/-- Running a list of engine events. -/
def runAuto (s : AutoState) (evs : List AutoEvent) : AutoState :=
  evs.foldl stepAuto s

/-- An image asset as consumed by `validateFiducials`: only the uri matters
to the control flow (`asset?.uri`, with the empty string falsy). -/
structure Asset where
  uri : Option String

/-- The outcome of the `fetch` to `/fiducial/validate`: a network-level
failure or an HTTP response with its `ok` flag, status and parsed body. -/
inductive NetOutcome where
  | netError : String → NetOutcome
  | response : Bool → ℕ → FidResult → NetOutcome

/-- Embedding of `validateFiducials` from `src/utils/api.js` (lines 50-83),
parameterized by the network outcome: a missing/falsy uri throws
(`Except.error`); a network error or a non-ok response returns the sentinel
result; an ok response returns its body. -/
def validateFiducials (asset : Option Asset) (net : NetOutcome) : Except String FidResult :=
  match asset with
  | none => Except.error ("No image asset supplied for fiducial validation")
  | some a =>
    match a.uri with
    | none => Except.error ("No image asset supplied for fiducial validation")
    | some u =>
      if u.isEmpty then Except.error ("No image asset supplied for fiducial validation")
      else
        match net with
        | NetOutcome.netError _ => Except.ok fiducialFailureResult
        | NetOutcome.response ok _ body =>
            if ok then Except.ok body else Except.ok fiducialFailureResult

/-- A concrete fully-ready engine state used by the witnesses. -/
def baseState : AutoState :=
  { cameraVisible := true
    cameraReady := true
    autoCaptureEnabled := true
    locked := false
    timerActive := false
    timerPeriodMs := 0
    countdown := 0
    fiducialCount := 4
    fiducialQuality := 0.8
    fiducialReady := true
    fiducialIntervalActive := true
    fiducialInProgress := false
    alignmentScore := 0.6
    accelActive := true
    lastAccelSample := none
    checksStarted := 0
    fired := 0 }

/-- Conclusion of claim C1 at a state: one run of the auto-capture effect
starts the countdown exactly when the camera is ready, auto-capture is
enabled, the lock is free, at least `MIN_FIDUCIALS_FOR_CAPTURE` fiducials are
detected, `fiducialReady` holds and the score reaches the start threshold;
on entry the countdown is `AUTO_CAPTURE_START_MS`, the sampler period is the
120 ms literal, and each sampler tick updates the remaining value. -/
def ArmingEntryProp (s : AutoState) : Prop :=
  ((runAutoCaptureEffect s).timerActive = true ↔
    (s.cameraReady = true ∧ s.autoCaptureEnabled = true ∧ s.locked = false ∧
     MIN_FIDUCIALS_FOR_CAPTURE ≤ s.fiducialCount ∧ s.fiducialReady = true ∧
     AUTO_CAPTURE_START_THRESHOLD ≤ s.alignmentScore)) ∧
  ((runAutoCaptureEffect s).timerActive = true →
    (runAutoCaptureEffect s).countdown = AUTO_CAPTURE_START_MS ∧
    (runAutoCaptureEffect s).timerPeriodMs = autoCaptureSampleIntervalMs ∧
    ∀ e, (countdownTick e (runAutoCaptureEffect s)).countdown = AUTO_CAPTURE_START_MS - e)

/-- Conclusion of claim C2 at a state and an elapsed time that exhausts the
countdown: the tick fires exactly one capture (lock taken, timer cleared,
countdown zeroed) and afterwards no sequence of engine events can fire
again, restart a countdown, or start a fiducial check. -/
def SingleFireProp (s : AutoState) (e : ℕ) : Prop :=
  (countdownTick e s).fired = s.fired + 1 ∧
  (countdownTick e s).locked = true ∧
  (countdownTick e s).timerActive = false ∧
  (countdownTick e s).countdown = 0 ∧
  ∀ evs : List AutoEvent,
    (runAuto (countdownTick e s) evs).fired = (countdownTick e s).fired ∧
    (runAuto (countdownTick e s) evs).timerActive = false ∧
    (runAuto (countdownTick e s) evs).checksStarted = (countdownTick e s).checksStarted

/-- Conclusion of claim C3 at a state with a running countdown: the effect
cancels (timer cleared, countdown reset to 0) exactly when the entry
condition `bothConditionsMet` fails, and in particular it cancels for any
score in the hysteresis band between the cancel and start thresholds. -/
def ArmingCancelProp (s : AutoState) : Prop :=
  (((runAutoCaptureEffect s).timerActive = false ∧ (runAutoCaptureEffect s).countdown = 0) ↔
    bothConditionsMet s = false) ∧
  (AUTO_CAPTURE_CANCEL_THRESHOLD ≤ s.alignmentScore →
    s.alignmentScore < AUTO_CAPTURE_START_THRESHOLD →
    (runAutoCaptureEffect s).timerActive = false ∧ (runAutoCaptureEffect s).countdown = 0)

/-- Invariant of a firing capture cycle: the camera session is open and
ready, auto-capture is enabled, the lock is held and no countdown timer is
active. -/
def CycleInv (s : AutoState) : Prop :=
  s.cameraVisible = true ∧ s.cameraReady = true ∧ s.autoCaptureEnabled = true ∧
  s.locked = true ∧ s.timerActive = false

/-- Conclusion of claim C7: on a network-level failure or a non-ok response
the validation helper resolves (no exception) with the sentinel result;
applying that result zeroes the fiducial state and clears the in-progress
flag, and a subsequent poll under good conditions starts a new check. -/
def FidFailureProp (a : Asset) (net : NetOutcome) (s : AutoState) : Prop :=
  validateFiducials (some a) net = Except.ok fiducialFailureResult ∧
  (applyCheckOutcome (CheckOutcome.result fiducialFailureResult) s).fiducialCount = 0 ∧
  (applyCheckOutcome (CheckOutcome.result fiducialFailureResult) s).fiducialQuality = 0 ∧
  (applyCheckOutcome (CheckOutcome.result fiducialFailureResult) s).fiducialReady = false ∧
  (applyCheckOutcome (CheckOutcome.result fiducialFailureResult) s).fiducialInProgress = false ∧
  (s.fiducialIntervalActive = true → s.cameraReady = true → s.locked = false →
    (fiducialPollTick true
        (applyCheckOutcome (CheckOutcome.result fiducialFailureResult) s)).checksStarted
      = s.checksStarted + 1)

/-- Conclusion of claim C8 at a state and camera-ref flag: a scheduled check
is a no-op whenever one is in flight, the engine is locked, the camera is
not ready or the camera ref is gone; otherwise it enters the body once, and
an immediately following poll is a no-op, so at most one check is in flight. -/
def PollGuardProp (s : AutoState) (hasCam : Bool) : Prop :=
  ((s.fiducialInProgress = true ∨ s.locked = true ∨ s.cameraReady = false ∨ hasCam = false) →
      fiducialPollTick hasCam s = s) ∧
  ((s.fiducialIntervalActive = true ∧ s.fiducialInProgress = false ∧ s.locked = false ∧
    s.cameraReady = true ∧ hasCam = true) →
      (fiducialPollTick hasCam s).fiducialInProgress = true ∧
      (fiducialPollTick hasCam s).checksStarted = s.checksStarted + 1 ∧
      fiducialPollTick hasCam (fiducialPollTick hasCam s) = fiducialPollTick hasCam s)

/-- Conclusion of claim C10 at a state: a check that fails before the remote
service responds (missing camera ref, snapshot exception, or snapshot
without uri) leaves the fiducial fields unchanged — the zero sentinel is not
applied — resets the in-progress flag, and does not block the next poll. -/
def CheckEarlyFailureProp (s : AutoState) : Prop :=
  fiducialPollTick false s = s ∧
  (∀ o, (o = CheckOutcome.threw ∨ o = CheckOutcome.noUri) →
    (applyCheckOutcome o s).fiducialCount = s.fiducialCount ∧
    (applyCheckOutcome o s).fiducialQuality = s.fiducialQuality ∧
    (applyCheckOutcome o s).fiducialReady = s.fiducialReady ∧
    (applyCheckOutcome o s).fiducialInProgress = false) ∧
  (s.fiducialIntervalActive = true → s.cameraReady = true → s.locked = false →
    (fiducialPollTick true (applyCheckOutcome CheckOutcome.threw s)).checksStarted
      = s.checksStarted + 1)

/- ------------------------------------------------------------------ -/
/- Helper lemmas on the JS-number operations.                          -/
/- ------------------------------------------------------------------ -/

namespace JSNum

@[simp] theorem add_fin (x y : ℝ) : add (fin x) (fin y) = fin (x + y) := rfl

@[simp] theorem neg_fin (x : ℝ) : neg (fin x) = fin (-x) := rfl

@[simp] theorem sub_fin (x y : ℝ) : sub (fin x) (fin y) = fin (x - y) := by
  simp [sub, sub_eq_add_neg]

@[simp] theorem mul_fin (x y : ℝ) : mul (fin x) (fin y) = fin (x * y) := rfl

@[simp] theorem abs_fin (x : ℝ) : abs (fin x) = fin |x| := rfl

@[simp] theorem max2_fin (x y : ℝ) : max2 (fin x) (fin y) = fin (max x y) := rfl

@[simp] theorem min2_fin (x y : ℝ) : min2 (fin x) (fin y) = fin (min x y) := rfl

@[simp] theorem isFin_fin (x : ℝ) : isFin (fin x) = true := rfl

@[simp] theorem orZero_fin (x : ℝ) : orZero (fin x) = fin x := by
  by_cases h : x = 0 <;> simp [orZero, h]

theorem sqrt_fin (x : ℝ) (hx : 0 ≤ x) : sqrt (fin x) = fin (Real.sqrt x) := by
  simp [sqrt, hx]

theorem div_fin (x y : ℝ) (hy : y ≠ 0) : div (fin x) (fin y) = fin (x / y) := by
  simp [div, hy]

@[simp] theorem sqrt_fin_sumsq3 (a b c : ℝ) :
    sqrt (fin (a * a + b * b + c * c)) = fin (Real.sqrt (a * a + b * b + c * c)) :=
  sqrt_fin _ (add_nonneg (add_nonneg (mul_self_nonneg a) (mul_self_nonneg b)) (mul_self_nonneg c))

@[simp] theorem sqrt_fin_sumsq2 (a b : ℝ) :
    sqrt (fin (a * a + b * b)) = fin (Real.sqrt (a * a + b * b)) :=
  sqrt_fin _ (add_nonneg (mul_self_nonneg a) (mul_self_nonneg b))

@[simp] theorem div_fin_mag (x s : ℝ) :
    div (fin x) (fin (max 1e-3 s)) = fin (x / max 1e-3 s) :=
  div_fin _ _ (ne_of_gt (lt_of_lt_of_le (by norm_num) (le_max_left _ _)))

@[simp] theorem div_fin_delta (x : ℝ) :
    div (fin x) (fin MAX_ACCEL_DELTA) = fin (x / MAX_ACCEL_DELTA) :=
  div_fin _ _ (by norm_num [MAX_ACCEL_DELTA])

/-- A JS number is finite exactly when it is a `fin`. -/
theorem isFin_iff (n : JSNum) : n.isFin = true ↔ ∃ x, n = fin x := by
  cases n <;> simp [isFin]

end JSNum

/-- A sample is finite exactly when its three components are `fin`. -/
theorem AccelSample.finite_iff (a : AccelSample) :
    a.finite = true ↔ ∃ x y z, a = ⟨JSNum.fin x, JSNum.fin y, JSNum.fin z⟩ := by
  obtain ⟨ax, ay, az⟩ := a
  simp only [AccelSample.finite, Bool.and_eq_true, JSNum.isFin_iff]
  constructor
  · rintro ⟨⟨⟨x, hx⟩, ⟨y, hy⟩⟩, ⟨z, hz⟩⟩
    exact ⟨x, y, z, by simp_all⟩
  · rintro ⟨x, y, z, h⟩
    cases h
    exact ⟨⟨⟨x, rfl⟩, ⟨y, rfl⟩⟩, ⟨z, rfl⟩⟩

/-- On finite samples, `deriveAlignmentScore` computes the real formula
`realDerive`. -/
theorem deriveAlignmentScore_fin (x y z : ℝ) :
    deriveAlignmentScore ⟨JSNum.fin x, JSNum.fin y, JSNum.fin z⟩
      = JSNum.fin (realDerive x y z) := by
  simp [deriveAlignmentScore, realDerive]

/-- On finite samples, `computeJitterPenalty` computes the real formula
`realJitter`. -/
theorem computeJitterPenalty_fin (px py pz cx cy cz : ℝ) :
    computeJitterPenalty (some ⟨JSNum.fin px, JSNum.fin py, JSNum.fin pz⟩)
        (some ⟨JSNum.fin cx, JSNum.fin cy, JSNum.fin cz⟩)
      = JSNum.fin (realJitter px py pz cx cy cz) := by
  simp [computeJitterPenalty, realJitter]

/-- With no previous sample, the listener composite on a finite sample is the
clamped base score. -/
theorem listenerComposite_none (x y z : ℝ) :
    listenerComposite none ⟨JSNum.fin x, JSNum.fin y, JSNum.fin z⟩
      = JSNum.fin (specClamp01 (realDerive x y z)) := by
  simp [listenerComposite, computeJitterPenalty, specClamp01, deriveAlignmentScore_fin]

/-- With a finite previous sample, the listener composite on a finite sample
is the clamped base score minus the scaled jitter penalty. -/
theorem listenerComposite_some (px py pz x y z : ℝ) :
    listenerComposite (some ⟨JSNum.fin px, JSNum.fin py, JSNum.fin pz⟩)
        ⟨JSNum.fin x, JSNum.fin y, JSNum.fin z⟩
      = JSNum.fin (specClamp01 (realDerive x y z - realJitter px py pz x y z * 0.45)) := by
  simp [listenerComposite, computeJitterPenalty_fin, specClamp01, deriveAlignmentScore_fin]

theorem specClamp01_nonneg (v : ℝ) : 0 ≤ specClamp01 v := le_max_left _ _

theorem specClamp01_le_one (v : ℝ) : specClamp01 v ≤ 1 :=
  max_le (by norm_num) (min_le_left _ _)

/-- One listener firing on a finite sample preserves the invariant. -/
theorem alignInv_step (st : AlignState) (h : AlignInv st) (d : AccelSample)
    (hd : d.finite = true) : AlignInv (accelListenerStep st d) := by
  obtain ⟨⟨r, hr, hr0, hr1⟩, hlast⟩ := h
  obtain ⟨x, y, z, rfl⟩ := (AccelSample.finite_iff d).mp hd
  have hcomp : ∃ c, listenerComposite st.lastSample ⟨JSNum.fin x, JSNum.fin y, JSNum.fin z⟩
      = JSNum.fin c ∧ 0 ≤ c ∧ c ≤ 1 := by
    rcases hlast with h0 | ⟨p, hp, hpf⟩
    · rw [h0, listenerComposite_none]
      exact ⟨_, rfl, specClamp01_nonneg _, specClamp01_le_one _⟩
    · obtain ⟨px, py, pz, rfl⟩ := (AccelSample.finite_iff p).mp hpf
      rw [hp, listenerComposite_some]
      exact ⟨_, rfl, specClamp01_nonneg _, specClamp01_le_one _⟩
  obtain ⟨c, hc, hc0, hc1⟩ := hcomp
  constructor
  · refine ⟨r * 0.55 + c * 0.45, ?_, ?_, ?_⟩
    · simp [accelListenerStep, hr, hc]
    · nlinarith
    · nlinarith
  · exact Or.inr ⟨_, rfl, hd⟩

/-- The invariant is preserved along any finite-sample trace. -/
theorem alignInv_run (l : List AccelSample) (hl : ∀ a ∈ l, a.finite = true)
    (st : AlignState) (h : AlignInv st) : AlignInv (l.foldl accelListenerStep st) := by
  induction l generalizing st with
  | nil => exact h
  | cons a t ih =>
    exact ih (fun b hb => hl b (List.mem_cons_of_mem _ hb)) _
      (alignInv_step st h a (hl a (List.mem_cons_self _ _)))

/-- C4: for every sequence of motion samples whose components are finite, the
smoothed `alignmentScore` after each update (i.e. after running any such
sequence from the initial session state) is a finite value in `[0, 1]`: the
per-sample composite is clamped to `[0, 1]` and each update is the convex
combination `old * 0.55 + composite * 0.45`. -/
theorem alignmentScore_stays_in_unit_interval (l : List AccelSample)
    (hl : ∀ a ∈ l, a.finite = true) :
    ∃ r, (runSamples l).score = JSNum.fin r ∧ 0 ≤ r ∧ r ≤ 1 :=
  (alignInv_run l hl alignInit ⟨⟨0, rfl, le_refl 0, zero_le_one⟩, Or.inl rfl⟩).1

/-- Witness for C4 at the concrete one-sample trace `[(3, 4, 12)]`. -/
theorem alignmentScore_stays_in_unit_interval_witness :
    (∀ a ∈ [(⟨JSNum.fin 3, JSNum.fin 4, JSNum.fin 12⟩ : AccelSample)], a.finite = true) ∧
    ∃ r, (runSamples [⟨JSNum.fin 3, JSNum.fin 4, JSNum.fin 12⟩]).score = JSNum.fin r
      ∧ 0 ≤ r ∧ r ≤ 1 := by
  have h : ∀ a ∈ [(⟨JSNum.fin 3, JSNum.fin 4, JSNum.fin 12⟩ : AccelSample)], a.finite = true := by
    intro a ha
    simp only [List.mem_singleton] at ha
    subst ha
    rfl
  exact ⟨h, alignmentScore_stays_in_unit_interval _ h⟩

/-- C5, code evaluated at the failing input: a motion sample whose `x`
component is NaN is not rejected — the listener still runs the update and the
smoothed score becomes NaN instead of keeping its previous value 0.  The
`Number.isFinite` guard in the listener inspects the previous score, not the
incoming sample. -/
theorem nan_sample_corrupts_smoothed_score :
    (accelListenerStep alignInit ⟨JSNum.nan, JSNum.fin 0, JSNum.fin 0⟩).score = JSNum.nan ∧
    alignInit.score = JSNum.fin 0 ∧ JSNum.nan ≠ JSNum.fin 0 :=
  ⟨rfl, rfl, fun h => JSNum.noConfusion h⟩

/-- C6 counterexample: on the very first sample of a session (previous score
0, no stored sample), with sample `(0, 0, 1)` the composite is 1, but the
stored score is `0.45 = 0 * 0.55 + 1 * 0.45`, not the composite itself. -/
theorem firstSample_not_bare_composite :
    (accelListenerStep alignInit ⟨JSNum.fin 0, JSNum.fin 0, JSNum.fin 1⟩).score
        = JSNum.fin 0.45 ∧
    listenerComposite none ⟨JSNum.fin 0, JSNum.fin 0, JSNum.fin 1⟩ = JSNum.fin 1 ∧
    (accelListenerStep alignInit ⟨JSNum.fin 0, JSNum.fin 0, JSNum.fin 1⟩).score
      ≠ listenerComposite none ⟨JSNum.fin 0, JSNum.fin 0, JSNum.fin 1⟩ := by
  have hd : realDerive 0 0 1 = 1 := by
    unfold realDerive
    norm_num [Real.sqrt_one, Real.sqrt_zero]
  have hc : listenerComposite none ⟨JSNum.fin 0, JSNum.fin 0, JSNum.fin 1⟩ = JSNum.fin 1 := by
    rw [listenerComposite_none, hd]
    norm_num [specClamp01]
  have hs : (accelListenerStep alignInit ⟨JSNum.fin 0, JSNum.fin 0, JSNum.fin 1⟩).score
      = JSNum.fin 0.45 := by
    simp only [accelListenerStep, alignInit]
    rw [hc]
    simp
  refine ⟨hs, hc, ?_⟩
  rw [hs, hc]
  simp only [ne_eq, JSNum.fin.injEq]
  norm_num

/-- C6 amended: each update computes
`composite = clamp01(raw - min(1, delta / 0.35) * 0.45)` (zero jitter when
there is no previous sample) and stores the blend
`old * 0.55 + composite * 0.45` whenever the previous score is finite —
including the very first sample of a session, where the previous score is the
initial 0, so the first stored score is `composite * 0.45`; the bare
composite is stored only when the previous score is not finite. -/
theorem accelUpdate_formula :
    (∀ r x y z : ℝ,
        accelListenerStep ⟨JSNum.fin r, none⟩ ⟨JSNum.fin x, JSNum.fin y, JSNum.fin z⟩
          = ⟨JSNum.fin (r * 0.55 + specClamp01 (realDerive x y z) * 0.45),
             some ⟨JSNum.fin x, JSNum.fin y, JSNum.fin z⟩⟩) ∧
    (∀ r px py pz x y z : ℝ,
        accelListenerStep ⟨JSNum.fin r, some ⟨JSNum.fin px, JSNum.fin py, JSNum.fin pz⟩⟩
            ⟨JSNum.fin x, JSNum.fin y, JSNum.fin z⟩
          = ⟨JSNum.fin (r * 0.55
                + specClamp01 (realDerive x y z - realJitter px py pz x y z * 0.45) * 0.45),
             some ⟨JSNum.fin x, JSNum.fin y, JSNum.fin z⟩⟩) ∧
    (∀ (last : Option AccelSample) (d : AccelSample),
        accelListenerStep ⟨JSNum.nan, last⟩ d = ⟨listenerComposite last d, some d⟩) := by
  refine ⟨?_, ?_, ?_⟩
  · intro r x y z
    simp only [accelListenerStep]
    rw [listenerComposite_none]
    simp
  · intro r px py pz x y z
    simp only [accelListenerStep]
    rw [listenerComposite_some]
    simp
  · intro last d
    rfl

/- ------------------------------------------------------------------ -/
/- Lemmas on the state machine.                                        -/
/- ------------------------------------------------------------------ -/

/-- The entry condition, unfolded. -/
theorem bothConditionsMet_iff (s : AutoState) :
    bothConditionsMet s = true ↔
      (MIN_FIDUCIALS_FOR_CAPTURE ≤ s.fiducialCount ∧ s.fiducialReady = true ∧
       AUTO_CAPTURE_START_THRESHOLD ≤ s.alignmentScore) := by
  simp [bothConditionsMet, and_assoc]

/-- With no timer running, the effect starts one exactly when every guard
passes and the combined condition holds. -/
theorem effect_starts_iff (s : AutoState) (hT : s.timerActive = false) :
    (runAutoCaptureEffect s).timerActive = true ↔
      (s.cameraVisible = true ∧ s.cameraReady = true ∧ s.autoCaptureEnabled = true ∧
       s.locked = false ∧ bothConditionsMet s = true) := by
  unfold runAutoCaptureEffect
  cases hv : s.cameraVisible <;> cases hr : s.cameraReady <;>
    cases he : s.autoCaptureEnabled <;> cases hl : s.locked <;>
      cases hb : bothConditionsMet s <;>
        simp_all [clearAutoCaptureTimer]

/-- With no timer running, a started effect is exactly the start branch. -/
theorem effect_start_state (s : AutoState) (hT : s.timerActive = false)
    (h : (runAutoCaptureEffect s).timerActive = true) :
    runAutoCaptureEffect s =
      { s with
        timerActive := true
        timerPeriodMs := autoCaptureSampleIntervalMs
        countdown := AUTO_CAPTURE_START_MS } := by
  obtain ⟨hv, hr, he, hl, hb⟩ := (effect_starts_iff s hT).mp h
  unfold runAutoCaptureEffect
  simp [hv, hr, he, hl, hb, hT]

/-- A countdown tick on an armed state always reports the truncated
remaining time. -/
theorem countdownTick_remaining (e : ℕ) (s : AutoState) (h : s.timerActive = true) :
    (countdownTick e s).countdown = AUTO_CAPTURE_START_MS - e := by
  simp only [countdownTick, h, if_true]
  split_ifs with h0
  · simp [clearAutoCaptureTimer, h0]
  · rfl

/-- A countdown tick that exhausts the countdown fires exactly once: it
clears the timer (lock preserved), takes the lock, zeroes the countdown and
calls the capture handler. -/
theorem countdownTick_fires (e : ℕ) (s : AutoState) (hT : s.timerActive = true)
    (he : AUTO_CAPTURE_START_MS ≤ e) :
    countdownTick e s =
      { s with
        timerActive := false
        timerPeriodMs := 0
        fiducialIntervalActive := false
        fiducialInProgress := false
        countdown := 0
        locked := true
        fired := s.fired + 1 } := by
  have h0 : AUTO_CAPTURE_START_MS - e = 0 := Nat.sub_eq_zero_of_le he
  simp [countdownTick, hT, h0, clearAutoCaptureTimer]

/-- While the camera session is open, ready and enabled and the lock is
held, the auto-capture effect is the identity. -/
theorem effect_locked_id (s : AutoState) (h1 : s.cameraVisible = true)
    (h2 : s.cameraReady = true) (h3 : s.autoCaptureEnabled = true)
    (h4 : s.locked = true) : runAutoCaptureEffect s = s := by
  simp [runAutoCaptureEffect, h1, h2, h3, h4]

/-- A countdown tick with no timer is the identity. -/
theorem countdownTick_inactive (e : ℕ) (s : AutoState) (h : s.timerActive = false) :
    countdownTick e s = s := by
  simp [countdownTick, h]

/-- A fiducial poll while the lock is held is the identity. -/
theorem fiducialPollTick_locked (hc : Bool) (s : AutoState) (h : s.locked = true) :
    fiducialPollTick hc s = s := by
  simp [fiducialPollTick, h]

/-- Every engine event preserves the firing-cycle invariant and leaves the
fire and check counters unchanged. -/
theorem cycleInv_step (s : AutoState) (ev : AutoEvent) (h : CycleInv s) :
    CycleInv (stepAuto s ev) ∧ (stepAuto s ev).fired = s.fired ∧
      (stepAuto s ev).checksStarted = s.checksStarted := by
  obtain ⟨h1, h2, h3, h4, h5⟩ := h
  cases ev with
  | runEffect =>
    rw [stepAuto, effect_locked_id s h1 h2 h3 h4]
    exact ⟨⟨h1, h2, h3, h4, h5⟩, rfl, rfl⟩
  | tick e =>
    rw [stepAuto, countdownTick_inactive e s h5]
    exact ⟨⟨h1, h2, h3, h4, h5⟩, rfl, rfl⟩
  | fiducialPoll hc =>
    rw [stepAuto, fiducialPollTick_locked hc s h4]
    exact ⟨⟨h1, h2, h3, h4, h5⟩, rfl, rfl⟩
  | fiducialDone o =>
    cases o <;> exact ⟨⟨h1, h2, h3, h4, h5⟩, rfl, rfl⟩
  | scoreUpdate q =>
    by_cases ha : s.accelActive = true <;>
      simp [stepAuto, ha, CycleInv, h1, h2, h3, h4, h5]

/-- The firing-cycle invariant and the counters persist along any engine
trace. -/
theorem cycleInv_run (evs : List AutoEvent) (s : AutoState) (h : CycleInv s) :
    CycleInv (runAuto s evs) ∧ (runAuto s evs).fired = s.fired ∧
      (runAuto s evs).checksStarted = s.checksStarted := by
  induction evs generalizing s with
  | nil => exact ⟨h, rfl, rfl⟩
  | cons ev t ih =>
    obtain ⟨hinv, hf, hc⟩ := cycleInv_step s ev h
    obtain ⟨hinv2, hf2, hc2⟩ := ih (stepAuto s ev) hinv
    exact ⟨hinv2, by rw [runAuto] at hf2 ⊢; simp only [List.foldl_cons]; omega,
      by rw [runAuto] at hc2 ⊢; simp only [List.foldl_cons]; omega⟩

/-- C1: with no countdown running (and with camera readiness implying an
open session, as maintained by the screen lifecycle), one run of the
auto-capture effect enters Arming — starts the `AUTO_CAPTURE_START_MS =
1200` ms countdown, registered at the 120 ms sampling period, each sample
updating the remaining value — if and only if the camera is ready,
auto-capture is enabled, the lock is free, `fiducialCount ≥ 4`,
`fiducialReady` holds and `alignmentScore ≥ 0.55`; no countdown starts
while any of these fails. -/
theorem armingEntry_characterization (s : AutoState) (hT : s.timerActive = false)
    (hV : s.cameraReady = true → s.cameraVisible = true) : ArmingEntryProp s := by
  constructor
  · rw [effect_starts_iff s hT, bothConditionsMet_iff]
    tauto
  · intro h
    rw [effect_start_state s hT h]
    exact ⟨rfl, rfl, fun e => countdownTick_remaining e _ rfl⟩

/-- Witness for C1 at the fully-ready concrete state. -/
theorem armingEntry_characterization_witness :
    baseState.timerActive = false ∧
    (baseState.cameraReady = true → baseState.cameraVisible = true) ∧
    ArmingEntryProp baseState :=
  ⟨rfl, fun _ => rfl, armingEntry_characterization baseState rfl (fun _ => rfl)⟩

/-- C2: when the countdown reaches 0 while still arming, the tick clears the
countdown timer and takes the lock before invoking `handleTakePhoto(true)`
(one atomic step of the model, counted once by `fired`), and from the
resulting locked state no sequence of engine events can fire again, restart
a countdown, or start another fiducial check — the trigger fires exactly
once per arm cycle. -/
theorem singleFire_per_cycle (s : AutoState) (e : ℕ)
    (h1 : s.cameraVisible = true) (h2 : s.cameraReady = true)
    (h3 : s.autoCaptureEnabled = true) (h4 : s.locked = false)
    (hT : s.timerActive = true) (he : AUTO_CAPTURE_START_MS ≤ e) :
    SingleFireProp s e := by
  have hfire := countdownTick_fires e s hT he
  have hcyc : CycleInv (countdownTick e s) := by
    rw [hfire]
    exact ⟨h1, h2, h3, rfl, rfl⟩
  refine ⟨by rw [hfire], by rw [hfire], by rw [hfire], by rw [hfire], ?_⟩
  intro evs
  obtain ⟨hi, hf, hc⟩ := cycleInv_run evs _ hcyc
  exact ⟨hf, hi.2.2.2.2, hc⟩

/-- Witness for C2: an armed ready state, ticked at exactly 1200 ms. -/
theorem singleFire_per_cycle_witness :
    ({ baseState with timerActive := true } : AutoState).cameraVisible = true ∧
    ({ baseState with timerActive := true } : AutoState).cameraReady = true ∧
    ({ baseState with timerActive := true } : AutoState).autoCaptureEnabled = true ∧
    ({ baseState with timerActive := true } : AutoState).locked = false ∧
    ({ baseState with timerActive := true } : AutoState).timerActive = true ∧
    AUTO_CAPTURE_START_MS ≤ 1200 ∧
    SingleFireProp { baseState with timerActive := true } 1200 :=
  ⟨rfl, rfl, rfl, rfl, rfl, le_refl _,
    singleFire_per_cycle _ 1200 rfl rfl rfl rfl rfl (le_refl _)⟩

/-- C3: while arming (camera open and ready, enabled, lock free, timer
running), the effect cancels back to idle — timer cleared and countdown
reset to 0 — exactly when the entry condition `bothConditionsMet` no longer
holds; the decision reuses that same combined condition, and in particular
any score at or above `AUTO_CAPTURE_CANCEL_THRESHOLD = 0.35` but below the
start threshold still cancels, so the cancel constant plays no role. -/
theorem armingCancel_characterization (s : AutoState)
    (h1 : s.cameraVisible = true) (h2 : s.cameraReady = true)
    (h3 : s.autoCaptureEnabled = true) (h4 : s.locked = false)
    (hT : s.timerActive = true) : ArmingCancelProp s := by
  have heff : runAutoCaptureEffect s =
      if bothConditionsMet s then s else clearAutoCaptureTimer false s := by
    unfold runAutoCaptureEffect
    cases hb : bothConditionsMet s <;> simp [h1, h2, h3, h4, hT, hb]
  constructor
  · cases hb : bothConditionsMet s
    · rw [heff]
      simp [hb, clearAutoCaptureTimer]
    · rw [heff]
      simp [hb, hT]
  · intro hc hs
    have hsd : ¬ (AUTO_CAPTURE_START_THRESHOLD ≤ s.alignmentScore) := not_le.mpr hs
    have hb : bothConditionsMet s = false := by
      simp [bothConditionsMet, hsd]
    rw [heff]
    simp [hb, clearAutoCaptureTimer]

/-- Witness for C3: an armed state whose score sits in the hysteresis band
(0.45, between the cancel and start thresholds). -/
theorem armingCancel_characterization_witness :
    ({ baseState with timerActive := true, alignmentScore := 0.45 } : AutoState).cameraVisible = true ∧
    ({ baseState with timerActive := true, alignmentScore := 0.45 } : AutoState).cameraReady = true ∧
    ({ baseState with timerActive := true, alignmentScore := 0.45 } : AutoState).autoCaptureEnabled = true ∧
    ({ baseState with timerActive := true, alignmentScore := 0.45 } : AutoState).locked = false ∧
    ({ baseState with timerActive := true, alignmentScore := 0.45 } : AutoState).timerActive = true ∧
    ArmingCancelProp { baseState with timerActive := true, alignmentScore := 0.45 } :=
  ⟨rfl, rfl, rfl, rfl, rfl,
    armingCancel_characterization _ rfl rfl rfl rfl rfl⟩

/-- C7: whenever the fiducial-validation network request throws or the HTTP
response is not ok, `validateFiducials` resolves without exception with the
sentinel `{detected: 0, corners: {}, quality: 0, ready: false}`; applying
that result zeroes the engine fiducial state, clears the in-progress flag,
and the next poll tick under good conditions starts a fresh check. -/
theorem validateFiducials_failure (a : Asset) (u : String) (hu : a.uri = some u)
    (hne : u.isEmpty = false) (net : NetOutcome)
    (hnet : (∃ m, net = NetOutcome.netError m) ∨
            ∃ st b, net = NetOutcome.response false st b)
    (s : AutoState) : FidFailureProp a net s := by
  refine ⟨?_, rfl, rfl, rfl, rfl, ?_⟩
  · rcases hnet with ⟨m, rfl⟩ | ⟨st, b, rfl⟩ <;> simp [validateFiducials, hu, hne]
  · intro hi hr hl
    simp [fiducialPollTick, applyCheckOutcome, hi, hr, hl]

/-- Witness for C7: a uri-bearing snapshot, a network-level failure, and the
fully-ready engine state. -/
theorem validateFiducials_failure_witness :
    (⟨some ("snap.jpg")⟩ : Asset).uri = some ("snap.jpg") ∧
    ("snap.jpg").isEmpty = false ∧
    ((∃ m, NetOutcome.netError ("offline") = NetOutcome.netError m) ∨
      ∃ st b, NetOutcome.netError ("offline") = NetOutcome.response false st b) ∧
    FidFailureProp ⟨some ("snap.jpg")⟩ (NetOutcome.netError ("offline")) baseState :=
  ⟨rfl, by decide, Or.inl ⟨_, rfl⟩,
    validateFiducials_failure _ _ rfl (by decide) _ (Or.inl ⟨_, rfl⟩) baseState⟩

/-- C8: a scheduled fiducial check is skipped — the state is untouched and
no snapshot is taken — whenever a previous check is still in flight, the
capture lock is held, the camera is not ready, or the camera ref is gone;
otherwise the body is entered exactly once, setting the in-flight flag so
that an immediately following poll is a no-op: at most one check is in
flight at any time. -/
theorem fiducialPoll_guards (s : AutoState) (hasCam : Bool) :
    PollGuardProp s hasCam := by
  constructor
  · intro h
    rcases h with h | h | h | h <;> simp [fiducialPollTick, h]
  · rintro ⟨hi, hp, hl, hr, hcam⟩
    subst hcam
    have hstart : fiducialPollTick true s =
        { s with fiducialInProgress := true, checksStarted := s.checksStarted + 1 } := by
      simp [fiducialPollTick, hi, hp, hl, hr]
    rw [hstart]
    refine ⟨rfl, rfl, ?_⟩
    simp [fiducialPollTick, hi, hr, hl]

/-- Witness for C8 at the fully-ready concrete state with a live camera
ref. -/
theorem fiducialPoll_guards_witness : PollGuardProp baseState true :=
  fiducialPoll_guards baseState true

/-- C9: closing the camera session resets every piece of readiness state to
its initial value — score 0, fiducial count/quality 0, fiducial ready false,
countdown 0, lock released, accelerometer listener removed with its stored
sample, countdown and fiducial-poll intervals cleared, in-progress flag
reset, camera hidden and not ready — so a re-opened session starts with no
carried-over state. -/
theorem closeCamera_resets (s : AutoState) :
    (handleCloseCamera s).alignmentScore = 0 ∧
    (handleCloseCamera s).fiducialCount = 0 ∧
    (handleCloseCamera s).fiducialQuality = 0 ∧
    (handleCloseCamera s).fiducialReady = false ∧
    (handleCloseCamera s).countdown = 0 ∧
    (handleCloseCamera s).locked = false ∧
    (handleCloseCamera s).accelActive = false ∧
    (handleCloseCamera s).lastAccelSample = none ∧
    (handleCloseCamera s).timerActive = false ∧
    (handleCloseCamera s).timerPeriodMs = 0 ∧
    (handleCloseCamera s).fiducialIntervalActive = false ∧
    (handleCloseCamera s).fiducialInProgress = false ∧
    (handleCloseCamera s).cameraVisible = false ∧
    (handleCloseCamera s).cameraReady = false :=
  ⟨rfl, rfl, rfl, rfl, rfl, rfl, rfl, rfl, rfl, rfl, rfl, rfl, rfl, rfl⟩

/-- C10: a fiducial check that fails before the remote service responds —
missing camera ref (the poll is then a no-op), an exception while taking the
snapshot, or a snapshot without a uri — leaves `fiducialCount`,
`fiducialQuality` and `fiducialReady` unchanged (the zero sentinel is not
applied, unlike on a network failure), resets the in-progress flag, and the
next poll tick under good conditions is not blocked. -/
theorem checkFiducials_earlyFailure (s : AutoState) : CheckEarlyFailureProp s := by
  refine ⟨?_, ?_, ?_⟩
  · simp [fiducialPollTick]
  · rintro o (rfl | rfl) <;> exact ⟨rfl, rfl, rfl, rfl⟩
  · intro hi hr hl
    simp [fiducialPollTick, applyCheckOutcome, hi, hr, hl]

/-- Witness for C10 at the fully-ready concrete state. -/
theorem checkFiducials_earlyFailure_witness : CheckEarlyFailureProp baseState :=
  checkFiducials_earlyFailure baseState
